import Mathlib

/-!
Verification of `src/stl_binary.cpp` from Ghostkeeper/ConvertObjTo3mf.

Shallow embedding conventions:

* A file is a `List Nat` of byte values; a byte access is `file.getD i 0 % 256`
  (the `% 256` records that a C++ `char` read can only yield a byte).
* 32-bit floats are never inspected arithmetically by the source — they are
  only copied from the file into `Point3` fields — so a float is represented
  by its 32-bit little-endian bit pattern (a `Nat < 2^32`).
* `std::ifstream` is modelled by `IStream`: the byte data, the get position,
  and the sticky fail flag.  The C++ semantics embedded here:
  - `seekg` to any absolute offset succeeds (seeking past EOF is allowed for
    files) but is a no-op once `failbit` is set (the C++11 clearing of
    `eofbit` does not clear `failbit`);
  - `read` of 4 bytes succeeds iff the stream is good and 4 bytes are
    available; otherwise it sets `failbit` and leaves the destination
    variable indeterminate — the indeterminate value is made explicit as a
    `junk` parameter (`junk % 2^32` since the destination is 32 bits wide);
  - `tellg` returns the position, or -1 on a failed stream, which the source
    assigns to a `size_t`, so a failed `tellg` yields `2^64 - 1`.
* A file that cannot be opened leaves the stream in the fail state from the
  start; this is the `openFail : Bool` parameter.
* The probability arithmetic of `is_stl_binary` is embedded over `ℚ` with the
  exact constants 1/100 and 1/10000; the source uses `float`, but every claim
  about the probabilities is stated in terms of the exact formulas.
-/

set_option maxRecDepth 100000

namespace ConvertTo3mf

/-- One vertex: the three coordinate floats, each kept as its 32-bit
little-endian bit pattern. Mirrors `Point3` of the source. -/
structure Point3 where
  x : Nat
  y : Nat
  z : Nat
deriving DecidableEq, Repr

instance : Inhabited Point3 := ⟨⟨0, 0, 0⟩⟩

/-- One STL facet's vertices in file order. Mirrors `std::array<Point3, 3>`
in `StlBinary::load`. -/
structure Triangle where
  v1 : Point3
  v2 : Point3
  v3 : Point3
deriving DecidableEq, Repr

instance : Inhabited Triangle := ⟨⟨default, default, default⟩⟩

/-- A polygon of the shared model format. Mirrors `Face`. -/
structure Face where
  vertices : List Point3
deriving DecidableEq, Repr

/-- A mesh of the shared model format. Mirrors `Mesh`. -/
structure Mesh where
  faces : List Face
deriving DecidableEq, Repr

/-- The shared model format. Mirrors `Model`. -/
structure Model where
  meshes : List Mesh
deriving DecidableEq, Repr

/-- The state of a `std::ifstream` opened in binary mode: the file bytes, the
get position, and the (sticky) fail flag. -/
structure IStream where
  data : List Nat
  pos : Nat
  fail : Bool
deriving DecidableEq, Repr

/-- Byte `i` of the file (a C++ `char` read can only produce a value < 256). -/
def byteAt (file : List Nat) (i : Nat) : Nat :=
  file.getD i 0 % 256

/-- The unsigned 32-bit little-endian integer stored at byte offset `off`;
also the bit pattern obtained by reading 4 bytes into a 32-bit variable. -/
def le32 (file : List Nat) (off : Nat) : Nat :=
  byteAt file off + 256 * byteAt file (off + 1) +
    65536 * byteAt file (off + 2) + 16777216 * byteAt file (off + 3)

/-- `seekg(off, beg)` / `seekg(off)`: sets the get position (seeking beyond
EOF succeeds on a file stream); a no-op when the stream has failed. -/
def seekgAbs (s : IStream) (off : Nat) : IStream :=
  if s.fail then s else { s with pos := off }

/-- `seekg(0, end)`: moves the get position to the end of the file; a no-op
when the stream has failed. -/
def seekgEnd (s : IStream) : IStream :=
  if s.fail then s else { s with pos := s.data.length }

/-- `size_t file_size = file_handle.tellg()`: the get position, or
`(size_t)(-1) = 2^64 - 1` when the stream has failed. -/
def tellgSize (s : IStream) : Nat :=
  if s.fail then 2 ^ 64 - 1 else s.pos

/-- `file_handle.read((char*)&x, 4)` into a 32-bit variable: on a good stream
with 4 bytes available it yields the little-endian word at the current
position and advances; otherwise it sets the fail flag and the destination
keeps an indeterminate value, made explicit as `junk % 2^32`. -/
def read4 (s : IStream) (junk : Nat) : IStream × Nat :=
  if s.fail then (s, junk % 2 ^ 32)
  else if s.pos + 4 ≤ s.data.length then
    ({ s with pos := s.pos + 4 }, le32 s.data s.pos)
  else
    ({ s with fail := true }, junk % 2 ^ 32)

/-- The character set of `filename.find_last_of(".stl")` — `find_last_of`
searches for the last occurrence of ANY of these characters. -/
def stlChars : List Char := ['.', 's', 't', 'l']

/-- `std::string::npos` as a `size_t`. -/
def npos : Nat := 2 ^ 64 - 1

/-- Auxiliary scan for `find_last_of`: walks the string keeping the index of
the last character seen that belongs to the set. -/
def findLastOfAux (set : List Char) : List Char → Nat → Nat → Nat
  | [], _, best => best
  | c :: rest, i, best =>
      findLastOfAux set rest (i + 1) (if set.contains c then i else best)

/-- `filename.find_last_of(set)`: index of the last character of `filename`
that occurs in `set`, or `npos` when there is none. -/
def find_last_of (filename : List Char) (set : List Char) : Nat :=
  findLastOfAux set filename 0 npos

/-- The extension test of `is_stl_binary`, line 25 of the source:
`filename.find_last_of(".stl") == filename.length() - 4`.  Both sides are
`size_t`, so `filename.length() - 4` wraps modulo `2^64` for short names. -/
def extension_check (filename : List Char) : Bool :=
  find_last_of filename stlChars == (filename.length + (2 ^ 64 - 4)) % 2 ^ 64

/-- The base probability after the extension step, lines 24–29 of the
source. -/
def base_probability (filename : List Char) : ℚ :=
  let probability_incorrect_extension : ℚ := 1 / 100
  if extension_check filename then 1 - probability_incorrect_extension
  else probability_incorrect_extension

/-- The size-consistency check of `is_stl_binary`, lines 31–49 of the source,
as the stream operations performed there.  `84 + 50 * num_triangles` is
computed in C++ in `unsigned int` (32-bit) arithmetic — `num_triangles` is
`uint32_t` and `50`/`84` are `int` — so it wraps modulo `2^32` before being
compared (as `size_t`) with `file_size`. -/
def correct_file_size_check (openFail : Bool) (junk : Nat) (file : List Nat) :
    Bool :=
  let correct_file_size := true
  let s : IStream := ⟨file, 0, openFail⟩
  let s := seekgEnd s
  let file_size := tellgSize s
  let s := seekgAbs s 0
  let correct_file_size := if file_size < 84 then false else correct_file_size
  let s := seekgAbs s 80
  let r := read4 s junk
  let num_triangles := r.2
  let correct_file_size :=
    if file_size ≠ (84 + 50 * num_triangles) % 2 ^ 32 then false
    else correct_file_size
  correct_file_size

/-- `StlBinary::is_stl_binary` (lines 17–59): the estimate entry point.
`openFail` is true when the file cannot be opened; `junk` is the
indeterminate value left in `num_triangles` when the 4-byte read fails. -/
def is_stl_binary (openFail : Bool) (junk : Nat) (filename : List Char)
    (file : List Nat) : ℚ :=
  let probability : ℚ := 1 / 3
  let probability_incorrect_extension : ℚ := 1 / 100
  let probability_incorrect_size : ℚ := 1 / 10000
  let probability :=
    if extension_check filename then 1 - probability_incorrect_extension
    else probability_incorrect_extension
  if correct_file_size_check openFail junk file then
    1 - (1 - probability) * probability_incorrect_size
  else
    probability * probability_incorrect_size

/-- One iteration of the parsing loop of `StlBinary::load` (lines 84–103):
seek to `84 + triangle_index * 50 + 12` (skipping the normal vector), then
read the nine coordinate floats in order.  `fjunk` is the indeterminate
value left in a float variable by a failed read. -/
def readTriangle (fjunk : Nat) (s : IStream) (triangle_index : Nat) :
    IStream × Triangle :=
  let s := seekgAbs s (84 + triangle_index * 50 + 12)
  let r1 := read4 s fjunk
  let r2 := read4 r1.1 fjunk
  let r3 := read4 r2.1 fjunk
  let r4 := read4 r3.1 fjunk
  let r5 := read4 r4.1 fjunk
  let r6 := read4 r5.1 fjunk
  let r7 := read4 r6.1 fjunk
  let r8 := read4 r7.1 fjunk
  let r9 := read4 r8.1 fjunk
  (r9.1, ⟨⟨r1.2, r2.2, r3.2⟩, ⟨r4.2, r5.2, r6.2⟩, ⟨r7.2, r8.2, r9.2⟩⟩)

/-- The parsing loop of `StlBinary::load`: parse `k` triangles starting at
`triangle_index`, appending each to the list in order. -/
def loadTriangles (fjunk : Nat) : IStream → Nat → Nat → IStream × List Triangle
  | s, _, 0 => (s, [])
  | s, i, k + 1 =>
      let r := readTriangle fjunk s i
      let rest := loadTriangles fjunk r.1 (i + 1) k
      (rest.1, r.2 :: rest.2)

/-- `StlBinary::load` (lines 69–104), returning both the final stream state
and the parsed triangle list.  The statements `file_handle.seekg(80,beg)`,
the count read, `seekg(0,end)`, `tellg`, `seekg(84,beg)`, the clamp, and the
loop are embedded in source order.  `file_size - 84` is a `size_t`
subtraction; it never wraps here because in every reachable state
`file_size ≥ 84` (a failed `tellg` gives `2^64 - 1`, and a successful count
read implies the file has at least 84 bytes). -/
def loadS (openFail : Bool) (junk fjunk : Nat) (file : List Nat) :
    IStream × List Triangle :=
  let s : IStream := ⟨file, 0, openFail⟩
  let s := seekgAbs s 80
  let r := read4 s junk
  let s := r.1
  let num_triangles := r.2
  let s := seekgEnd s
  let file_size := tellgSize s
  let s := seekgAbs s 84
  let num_triangles :=
    if (file_size - 84) / 50 < num_triangles then (file_size - 84) / 50
    else num_triangles
  loadTriangles fjunk s 0 num_triangles

/-- The triangle list produced by `StlBinary::load`. -/
def load (openFail : Bool) (junk fjunk : Nat) (file : List Nat) :
    List Triangle :=
  (loadS openFail junk fjunk file).2

/-- `StlBinary::to_model` (lines 106–120): one mesh, one 3-vertex face per
triangle, in order. -/
def to_model (triangles : List Triangle) : Model :=
  { meshes := [{ faces := triangles.map fun t => { vertices := [t.v1, t.v2, t.v3] } }] }

/-- `StlBinary::import` (lines 61–67): `load` then `to_model` (the progress
message on `std::cout` has no effect on the returned model). -/
def importStl (openFail : Bool) (junk fjunk : Nat) (file : List Nat) : Model :=
  to_model (load openFail junk fjunk file)

/-- The triangle decoded from record `i` of the file: the nine little-endian
32-bit words at offsets `84 + i*50 + 12` through `84 + i*50 + 44`. -/
def decodeTriangle (file : List Nat) (i : Nat) : Triangle :=
  ⟨⟨le32 file (84 + i * 50 + 12), le32 file (84 + i * 50 + 16),
    le32 file (84 + i * 50 + 20)⟩,
   ⟨le32 file (84 + i * 50 + 24), le32 file (84 + i * 50 + 28),
    le32 file (84 + i * 50 + 32)⟩,
   ⟨le32 file (84 + i * 50 + 36), le32 file (84 + i * 50 + 40),
    le32 file (84 + i * 50 + 44)⟩⟩

/-- Modelled from the spec: the spec's reading of the extension test — "the
path's last 4 characters equal \".stl\" (case-sensitive, matching suffix)".
Used only to compare the spec's wording with the source's
`extension_check`. -/
def spec_ends_in_stl (filename : List Char) : Bool :=
  decide (4 ≤ filename.length) &&
    (filename.drop (filename.length - 4) == ['.', 's', 't', 'l'])

/-! ### Helper lemmas about the stream operations -/

theorem read4_at (data : List Nat) (p fj : Nat) (h : p + 4 ≤ data.length) :
    read4 ⟨data, p, false⟩ fj = (⟨data, p + 4, false⟩, le32 data p) := by
  simp [read4, h]

theorem read4_failed (s : IStream) (fj : Nat) (h : s.fail = true) :
    read4 s fj = (s, fj % 2 ^ 32) := by
  simp [read4, h]

theorem seekgAbs_good (data : List Nat) (p off : Nat) :
    seekgAbs ⟨data, p, false⟩ off = ⟨data, off, false⟩ := by
  simp [seekgAbs]

theorem seekgEnd_good (data : List Nat) (p : Nat) :
    seekgEnd ⟨data, p, false⟩ = ⟨data, data.length, false⟩ := by
  simp [seekgEnd]

theorem readTriangle_ok (data : List Nat) (p fj i : Nat)
    (h : 84 + i * 50 + 48 ≤ data.length) :
    readTriangle fj ⟨data, p, false⟩ i =
      (⟨data, 84 + i * 50 + 48, false⟩, decodeTriangle data i) := by
  have e16 : read4 ⟨data, 84 + i * 50 + 12, false⟩ fj =
      (⟨data, 84 + i * 50 + 16, false⟩, le32 data (84 + i * 50 + 12)) := by
    have e := read4_at data (84 + i * 50 + 12) fj (by omega)
    rwa [show 84 + i * 50 + 12 + 4 = 84 + i * 50 + 16 by omega] at e
  have e20 : read4 ⟨data, 84 + i * 50 + 16, false⟩ fj =
      (⟨data, 84 + i * 50 + 20, false⟩, le32 data (84 + i * 50 + 16)) := by
    have e := read4_at data (84 + i * 50 + 16) fj (by omega)
    rwa [show 84 + i * 50 + 16 + 4 = 84 + i * 50 + 20 by omega] at e
  have e24 : read4 ⟨data, 84 + i * 50 + 20, false⟩ fj =
      (⟨data, 84 + i * 50 + 24, false⟩, le32 data (84 + i * 50 + 20)) := by
    have e := read4_at data (84 + i * 50 + 20) fj (by omega)
    rwa [show 84 + i * 50 + 20 + 4 = 84 + i * 50 + 24 by omega] at e
  have e28 : read4 ⟨data, 84 + i * 50 + 24, false⟩ fj =
      (⟨data, 84 + i * 50 + 28, false⟩, le32 data (84 + i * 50 + 24)) := by
    have e := read4_at data (84 + i * 50 + 24) fj (by omega)
    rwa [show 84 + i * 50 + 24 + 4 = 84 + i * 50 + 28 by omega] at e
  have e32 : read4 ⟨data, 84 + i * 50 + 28, false⟩ fj =
      (⟨data, 84 + i * 50 + 32, false⟩, le32 data (84 + i * 50 + 28)) := by
    have e := read4_at data (84 + i * 50 + 28) fj (by omega)
    rwa [show 84 + i * 50 + 28 + 4 = 84 + i * 50 + 32 by omega] at e
  have e36 : read4 ⟨data, 84 + i * 50 + 32, false⟩ fj =
      (⟨data, 84 + i * 50 + 36, false⟩, le32 data (84 + i * 50 + 32)) := by
    have e := read4_at data (84 + i * 50 + 32) fj (by omega)
    rwa [show 84 + i * 50 + 32 + 4 = 84 + i * 50 + 36 by omega] at e
  have e40 : read4 ⟨data, 84 + i * 50 + 36, false⟩ fj =
      (⟨data, 84 + i * 50 + 40, false⟩, le32 data (84 + i * 50 + 36)) := by
    have e := read4_at data (84 + i * 50 + 36) fj (by omega)
    rwa [show 84 + i * 50 + 36 + 4 = 84 + i * 50 + 40 by omega] at e
  have e44 : read4 ⟨data, 84 + i * 50 + 40, false⟩ fj =
      (⟨data, 84 + i * 50 + 44, false⟩, le32 data (84 + i * 50 + 40)) := by
    have e := read4_at data (84 + i * 50 + 40) fj (by omega)
    rwa [show 84 + i * 50 + 40 + 4 = 84 + i * 50 + 44 by omega] at e
  have e48 : read4 ⟨data, 84 + i * 50 + 44, false⟩ fj =
      (⟨data, 84 + i * 50 + 48, false⟩, le32 data (84 + i * 50 + 44)) := by
    have e := read4_at data (84 + i * 50 + 44) fj (by omega)
    rwa [show 84 + i * 50 + 44 + 4 = 84 + i * 50 + 48 by omega] at e
  simp [readTriangle, seekgAbs_good, e16, e20, e24, e28, e32, e36, e40, e44,
    e48, decodeTriangle]

/-- The triangles decoded from `k` consecutive records starting at record
`i`. -/
def decodeFrom (data : List Nat) : Nat → Nat → List Triangle
  | _, 0 => []
  | i, k + 1 => decodeTriangle data i :: decodeFrom data (i + 1) k

theorem decodeFrom_length (data : List Nat) :
    ∀ k i, (decodeFrom data i k).length = k
  | 0, _ => rfl
  | k + 1, i => by simp [decodeFrom, decodeFrom_length data k]

theorem decodeFrom_getD (data : List Nat) :
    ∀ k i j, j < k →
      (decodeFrom data i k).getD j default = decodeTriangle data (i + j)
  | k + 1, i, 0, _ => by simp [decodeFrom]
  | k + 1, i, j + 1, h => by
    have ih := decodeFrom_getD data k (i + 1) j (by omega)
    simp only [decodeFrom, List.getD_cons_succ, ih]
    congr 1
    omega

/-- The loop always appends exactly as many triangles as its loop bound,
whether or not the reads succeed. -/
theorem loadTriangles_length (fj : Nat) :
    ∀ (k : Nat) (s : IStream) (i : Nat), (loadTriangles fj s i k).2.length = k
  | 0, _, _ => rfl
  | k + 1, s, i => by
    simp [loadTriangles, loadTriangles_length fj k]

/-- On a good stream with all `k` records inside the file, the loop decodes
exactly records `i, i+1, …, i+k-1` and never makes the stream fail. -/
theorem loadTriangles_ok (fj : Nat) (data : List Nat) :
    ∀ (k i p : Nat), 84 + (i + k) * 50 ≤ data.length →
      loadTriangles fj ⟨data, p, false⟩ i k =
        ((loadTriangles fj ⟨data, p, false⟩ i k).1, decodeFrom data i k) ∧
      (loadTriangles fj ⟨data, p, false⟩ i k).1.fail = false
  | 0, i, p, _ => by simp [loadTriangles, decodeFrom]
  | k + 1, i, p, h => by
    have hrec := readTriangle_ok data p fj i (by nlinarith)
    have ih := loadTriangles_ok fj data k (i + 1) (84 + i * 50 + 48)
      (by omega)
    simp only [loadTriangles, hrec]
    constructor
    · simp only [decodeFrom]
      rw [Prod.ext_iff]
      refine ⟨rfl, ?_⟩
      simpa using congrArg Prod.snd ih.1
    · simpa using ih.2

/-- `StlBinary::load` on a readable file of at least 84 bytes reduces to the
loop on a good stream, with the count read from offset 80 and clamped by the
actual file size. -/
theorem loadS_good (j fj : Nat) (file : List Nat) (h : 84 ≤ file.length) :
    loadS false j fj file =
      loadTriangles fj ⟨file, 84, false⟩ 0
        (if (file.length - 84) / 50 < le32 file 80 then (file.length - 84) / 50
         else le32 file 80) := by
  have e : read4 ⟨file, 80, false⟩ j = (⟨file, 84, false⟩, le32 file 80) := by
    have e := read4_at file 80 j (by omega)
    rwa [show 80 + 4 = 84 by norm_num] at e
  simp [loadS, seekgAbs_good, seekgEnd_good, e, tellgSize]

/-- `StlBinary::load` on an unopenable file: every read fails, `tellg`
returns `(size_t)(-1)`, the clamp therefore never fires, and the loop runs
for the full indeterminate count. -/
theorem loadS_openFail (j fj : Nat) (file : List Nat) :
    loadS true j fj file = loadTriangles fj ⟨file, 0, true⟩ 0 (j % 2 ^ 32) := by
  simp only [loadS, seekgAbs, seekgEnd, tellgSize, read4]
  norm_num
  rw [if_neg (by omega : ¬ (368934881474191030 : ℕ) < j % 4294967296)]

/-! ### Helper lemmas about the sniffer -/

/-- The size-consistency check of the source in closed form: on a readable
file it succeeds iff the file has at least 84 bytes and the actual size
equals `84 + 50 * N` computed in 32-bit arithmetic, `N` being the
little-endian count at offset 80.  In particular the indeterminate value of
a failed count read never influences the outcome. -/
theorem correct_file_size_check_false_iff (j : Nat) (file : List Nat) :
    correct_file_size_check false j file = true ↔
      84 ≤ file.length ∧
        file.length = (84 + 50 * le32 file 80) % 2 ^ 32 := by
  by_cases h : 84 ≤ file.length
  · have e : read4 ⟨file, 80, false⟩ j = (⟨file, 84, false⟩, le32 file 80) := by
      have e := read4_at file 80 j (by omega)
      rwa [show 80 + 4 = 84 by norm_num] at e
    have htell : tellgSize ⟨file, file.length, false⟩ = file.length := by
      simp [tellgSize]
    simp only [correct_file_size_check, seekgEnd_good, seekgAbs_good,
      htell, e]
    by_cases hsz : file.length = (84 + 50 * le32 file 80) % 2 ^ 32
    · rw [if_neg (not_not_intro hsz), if_neg (by omega : ¬ file.length < 84)]
      exact ⟨fun _ => ⟨h, hsz⟩, fun _ => rfl⟩
    · rw [if_pos hsz]
      simp only [Bool.false_eq_true, false_iff]
      exact fun hcon => hsz hcon.2
  · have hfail : read4 ⟨file, 80, false⟩ j = (⟨file, 80, true⟩, j % 2 ^ 32) := by
      simp only [read4]
      rw [if_neg (by simp), if_neg (by simp; omega)]
    have htell : tellgSize ⟨file, file.length, false⟩ = file.length := by
      simp [tellgSize]
    simp only [correct_file_size_check, seekgEnd_good, seekgAbs_good,
      htell, hfail]
    have hiff : ∀ b : Bool,
        (if file.length ≠ (84 + 50 * (j % 2 ^ 32)) % 2 ^ 32 then false else b) =
          true ↔ (file.length = (84 + 50 * (j % 2 ^ 32)) % 2 ^ 32 ∧ b = true) := by
      intro b
      split
      · simp_all
      · simp_all
    rw [hiff]
    rw [if_pos (by omega : file.length < 84)]
    simp only [Bool.false_eq_true, and_false, false_iff]
    omega

/-- On an unopenable file the size check always fails: `tellg` yields
`2^64 - 1`, which can never equal a value reduced modulo `2^32`. -/
theorem correct_file_size_check_openFail (j : Nat) (file : List Nat) :
    correct_file_size_check true j file = false := by
  have h1 : seekgEnd ⟨file, 0, true⟩ = ⟨file, 0, true⟩ := by simp [seekgEnd]
  have h2 : ∀ off, seekgAbs (⟨file, 0, true⟩ : IStream) off = ⟨file, 0, true⟩ := by
    intro off
    simp [seekgAbs]
  have h3 : tellgSize ⟨file, 0, true⟩ = 2 ^ 64 - 1 := by simp [tellgSize]
  have h4 : read4 (⟨file, 0, true⟩ : IStream) j = (⟨file, 0, true⟩, j % 2 ^ 32) :=
    read4_failed _ _ rfl
  simp only [correct_file_size_check, h1, h2, h3, h4]
  rw [if_pos (by omega : (2 : ℕ) ^ 64 - 1 ≠ (84 + 50 * (j % 2 ^ 32)) % 2 ^ 32)]

/-- `is_stl_binary` in closed form: the extension step yields
`base_probability`, and the size step is the single Bayesian update of the
source. -/
theorem is_stl_binary_eq (o : Bool) (j : Nat) (fn : List Char)
    (file : List Nat) :
    is_stl_binary o j fn file =
      if correct_file_size_check o j file then
        1 - (1 - base_probability fn) * (1 / 10000)
      else base_probability fn * (1 / 10000) := rfl

/-- `(l.map f).getD i` for an index inside the list is `f` of the
corresponding element. -/
theorem getD_map_lt {α β : Type} (f : α → β) (l : List α) (i : Nat)
    (d : β) (d2 : α) (h : i < l.length) :
    (l.map f).getD i d = f (l.getD i d2) := by
  rw [List.getD_eq_getElem l d2 h,
    List.getD_eq_getElem (l.map f) d (by simpa using h)]
  simp

theorem loadTriangles_snd (fj : Nat) (data : List Nat) (k i p : Nat)
    (h : 84 + (i + k) * 50 ≤ data.length) :
    (loadTriangles fj ⟨data, p, false⟩ i k).2 = decodeFrom data i k :=
  congrArg Prod.snd (loadTriangles_ok fj data k i p h).1

/-! ### Concrete test files -/

/-- An 88-byte file whose count field holds 85899346; since
`50 * 85899346 = 2^32 + 4`, the 32-bit computation `84 + 50 * N` wraps to
exactly 88. -/
def file88 : List Nat :=
  List.replicate 80 0 ++ [82, 184, 30, 5] ++ List.replicate 4 0

/-- A well-formed binary STL file: 134 = 84 + 50·1 bytes, count 1, all
triangle bytes zero. -/
def file134 : List Nat :=
  List.replicate 80 0 ++ [1, 0, 0, 0] ++ List.replicate 50 0

/-- Like `file134` but with different header and record bytes; only bytes
80–83 agree with `file134`. -/
def file134b : List Nat :=
  List.replicate 80 1 ++ [1, 0, 0, 0] ++ List.replicate 50 2

/-- A 134-byte file (room for exactly one triangle record) whose count field
claims 2 triangles. -/
def file134c2 : List Nat :=
  List.replicate 80 0 ++ [2, 0, 0, 0] ++ List.replicate 50 0

/-- The spec's round-trip scenario file: 84 + 50 bytes, count 1, one
triangle with vertices (0,0,0), (1,0,0), (0,1,0) — the float 1.0 has the
little-endian bytes [0, 0, 128, 63], bit pattern 1065353216. -/
def fileRT : List Nat :=
  List.replicate 80 0 ++ [1, 0, 0, 0] ++ List.replicate 12 0 ++
    List.replicate 12 0 ++ ([0, 0, 128, 63] ++ List.replicate 8 0) ++
    (List.replicate 4 0 ++ [0, 0, 128, 63] ++ List.replicate 4 0) ++ [0, 0]

/-! ### Claims -/

/-- Claim C1: on a readable file of at least 84 bytes whose declared
triangle count (little-endian 32-bit word at offset 80) exceeds
`(file_size - 84) / 50`, `load` parses exactly `(file_size - 84) / 50`
triangles, the stream never fails (so no read ever goes past the end of the
file, and nothing throws — the embedding is a total function), and
`to_model` afterwards yields exactly that many faces. -/
theorem stl_c1_count_clamped (junk fjunk : Nat) (file : List Nat)
    (hlen : 84 ≤ file.length)
    (hcount : (file.length - 84) / 50 < le32 file 80) :
    (load false junk fjunk file).length = (file.length - 84) / 50 ∧
    (loadS false junk fjunk file).1.fail = false ∧
    ((to_model (load false junk fjunk file)).meshes.getD 0 ⟨[]⟩).faces.length =
      (file.length - 84) / 50 := by
  have hload := loadS_good junk fjunk file hlen
  rw [if_pos hcount] at hload
  have hbound : 84 + (0 + (file.length - 84) / 50) * 50 ≤ file.length := by
    have := Nat.div_mul_le_self (file.length - 84) 50
    omega
  have hsnd : (load false junk fjunk file) =
      decodeFrom file 0 ((file.length - 84) / 50) := by
    unfold load
    rw [hload]
    exact loadTriangles_snd fjunk file _ 0 84 hbound
  refine ⟨?_, ?_, ?_⟩
  · rw [hsnd, decodeFrom_length]
  · rw [hload]
    exact (loadTriangles_ok fjunk file _ 0 84 hbound).2
  · rw [hsnd]
    simp [to_model, decodeFrom_length]

/-- Claim C1 witness: a 134-byte file (one complete triangle record) whose
header claims 2 triangles yields exactly one triangle without any failed
read. -/
theorem stl_c1_count_clamped_witness :
    (load false 0 0 file134c2).length = 1 ∧
    (loadS false 0 0 file134c2).1.fail = false := by
  have h := stl_c1_count_clamped 0 0 file134c2 (by decide) (by decide)
  refine ⟨?_, h.2.1⟩
  rw [h.1]
  decide

/-- Claim C2 is a code bug; this theorem evaluates the code at the failing
input.  On a 0-byte file the count read fails, `tellg` then returns
`(size_t)(-1) = 2^64 - 1`, so the clamp `(file_size - 84) / 50` is huge and
never fires; `load` then produces as many garbage triangles as the
indeterminate count value (here 1), not zero, and `to_model` yields one
face, not an empty mesh. -/
theorem stl_c2_small_file_garbage :
    (load false 1 0 ([] : List Nat)).length = 1 ∧
    ((to_model (load false 1 0 ([] : List Nat))).meshes.getD 0
        ⟨[]⟩).faces.length = 1 := by
  constructor <;> decide

/-- Claim C3 is a code bug: `filename.find_last_of(".stl")` searches for the
last occurrence of ANY of the characters '.', 's', 't', 'l', not for the
substring ".stl", contradicting the source's own comment `//Ends in .stl`.
A name that really ends in ".stl" has 'l' as its last character, so
`find_last_of` returns `length - 1 ≠ length - 4` and the base probability
becomes 0.01; conversely "ab.xyz" (which does not end in ".stl") passes the
test. -/
theorem stl_c3_extension_is_charset :
    spec_ends_in_stl ['m', 'o', 'd', 'e', 'l', '.', 's', 't', 'l'] = true ∧
    extension_check ['m', 'o', 'd', 'e', 'l', '.', 's', 't', 'l'] = false ∧
    spec_ends_in_stl ['a', 'b', '.', 'x', 'y', 'z'] = false ∧
    extension_check ['a', 'b', '.', 'x', 'y', 'z'] = true ∧
    is_stl_binary false 0 ['m', 'o', 'd', 'e', 'l', '.', 's', 't', 'l'] [] =
      1 / 1000000 := by
  refine ⟨by decide, by decide, by decide, by decide, ?_⟩
  rw [is_stl_binary_eq,
    show correct_file_size_check false 0 [] = false by decide]
  rw [show base_probability ['m', 'o', 'd', 'e', 'l', '.', 's', 't', 'l'] =
      1 / 100 by
    rw [base_probability,
      show extension_check ['m', 'o', 'd', 'e', 'l', '.', 's', 't', 'l'] =
        false by decide]
    norm_num]
  norm_num

/-- Claim C4 counterexample: the size-consistency check succeeds on an
88-byte file whose count field is 85899346 although
`88 ≠ 84 + 50 * 85899346` — the product is computed in 32-bit arithmetic
and `84 + 50 * 85899346 = 2^32 + 88` wraps to 88. -/
theorem stl_c4_counterexample :
    correct_file_size_check false 0 file88 = true ∧
    file88.length ≠ 84 + 50 * le32 file88 80 := by
  constructor <;> decide

/-- Claim C4 as amended: on a readable file the size-consistency check of
`is_stl_binary` succeeds iff the file is at least 84 bytes long and its
size equals `(84 + 50 * N) % 2^32` — the sum is formed in 32-bit unsigned
arithmetic and can wrap — where `N` is the unsigned 32-bit little-endian
count at byte offset 80. -/
theorem stl_c4_size_check_wraps (junk : Nat) (file : List Nat) :
    correct_file_size_check false junk file = true ↔
      84 ≤ file.length ∧
        file.length = (84 + 50 * le32 file 80) % 2 ^ 32 :=
  correct_file_size_check_false_iff junk file

/-- Claim C4 witness: the amended characterisation applied to a concrete
consistent file, 134 = 84 + 50·1 bytes with count 1. -/
theorem stl_c4_size_check_wraps_witness :
    correct_file_size_check false 0 file134 = true :=
  (stl_c4_size_check_wraps 0 file134).mpr (by decide)

/-- Claim C5: for every input (any openability, any indeterminate read
value, any path, any content), `is_stl_binary` returns
`1 - (1 - p) * 0.0001` when the size-consistency check succeeds and
`p * 0.0001` when it fails, where `p` is the base probability produced by
the extension step; nothing else enters the returned value. -/
theorem stl_c5_bayesian_update (openFail : Bool) (junk : Nat)
    (fn : List Char) (file : List Nat) :
    is_stl_binary openFail junk fn file =
      if correct_file_size_check openFail junk file then
        1 - (1 - base_probability fn) * (1 / 10000)
      else base_probability fn * (1 / 10000) := rfl

/-- Claim C6 counterexample: an 88-byte file whose count field makes the
32-bit size formula wrap to 88 is accepted by the size check, so with the
extension wrong ("none") and the size inconsistent in the claim's exact
sense (`88 ≠ 84 + 50 * N`), `is_stl_binary` returns 0.999901 > 1/2, not a
value below 1/2. -/
theorem stl_c6_counterexample :
    spec_ends_in_stl ['n', 'o', 'n', 'e'] = false ∧
    file88.length ≠ 84 + 50 * le32 file88 80 ∧
    1 / 2 < is_stl_binary false 0 ['n', 'o', 'n', 'e'] file88 := by
  refine ⟨by decide, by decide, ?_⟩
  rw [is_stl_binary_eq,
    show correct_file_size_check false 0 file88 = true by decide]
  rw [show base_probability ['n', 'o', 'n', 'e'] = 1 / 100 by
    rw [base_probability,
      show extension_check ['n', 'o', 'n', 'e'] = false by decide]
    norm_num]
  norm_num

/-- Claim C6 as amended: `is_stl_binary` always returns a value in [0,1];
it returns a value above 1/2 whenever the path ends in ".stl" and the size
check succeeds (size equals the 32-bit-wrapped `84 + 50*N` and is at least
84), and a value below 1/2 whenever the path does not end in ".stl" and the
size check fails. -/
theorem stl_c6_estimate_range (openFail : Bool) (junk : Nat)
    (fn : List Char) (file : List Nat) :
    (0 ≤ is_stl_binary openFail junk fn file ∧
      is_stl_binary openFail junk fn file ≤ 1) ∧
    (spec_ends_in_stl fn = true →
      correct_file_size_check openFail junk file = true →
      1 / 2 < is_stl_binary openFail junk fn file) ∧
    (spec_ends_in_stl fn = false →
      correct_file_size_check openFail junk file = false →
      is_stl_binary openFail junk fn file < 1 / 2) := by
  rw [is_stl_binary_eq]
  simp only [base_probability]
  rcases Bool.eq_false_or_eq_true (extension_check fn) with he | he <;>
    rcases Bool.eq_false_or_eq_true
      (correct_file_size_check openFail junk file) with hc | hc <;>
    rw [he, hc] <;> norm_num

/-- Claim C6 witness: the amended theorem applied to an ".stl"-named
consistent file (result above 1/2) and to a wrongly named empty file
(result below 1/2). -/
theorem stl_c6_estimate_range_witness :
    1 / 2 < is_stl_binary false 0 ['a', '.', 's', 't', 'l'] file134 ∧
    is_stl_binary false 0 ['x'] [] < 1 / 2 := by
  constructor
  · exact (stl_c6_estimate_range false 0 ['a', '.', 's', 't', 'l']
      file134).2.1 (by decide) (by decide)
  · exact (stl_c6_estimate_range false 0 ['x'] []).2.2 (by decide) (by decide)

/-- Claim C7: `to_model` is a pure function of the triangle list: the model
holds exactly one mesh, the mesh holds one face per triangle in the same
order, each face holds exactly the triangle's 3 points in the same order,
and an empty triangle list (before `load`) gives one mesh with zero faces
rather than an error. -/
theorem stl_c7_to_model (ts : List Triangle) :
    (to_model ts).meshes.length = 1 ∧
    ((to_model ts).meshes.getD 0 ⟨[]⟩).faces.length = ts.length ∧
    (∀ i, i < ts.length →
      ((to_model ts).meshes.getD 0 ⟨[]⟩).faces.getD i ⟨[]⟩ =
        ⟨[(ts.getD i default).v1, (ts.getD i default).v2,
          (ts.getD i default).v3]⟩) ∧
    (ts = [] → ((to_model ts).meshes.getD 0 ⟨[]⟩).faces = []) := by
  refine ⟨rfl, by simp [to_model], ?_, ?_⟩
  · intro i hi
    simp only [to_model, List.getD_cons_zero]
    rw [getD_map_lt (fun t : Triangle => (⟨[t.v1, t.v2, t.v3]⟩ : Face)) ts i
      ⟨[]⟩ default hi]
  · intro h
    simp [to_model, h]

/-- Claim C7 witness: the correspondence evaluated on a one-triangle list
and on the empty list. -/
theorem stl_c7_to_model_witness :
    ((to_model [(⟨⟨1, 2, 3⟩, ⟨4, 5, 6⟩, ⟨7, 8, 9⟩⟩ : Triangle)]).meshes.getD 0
        ⟨[]⟩).faces.getD 0 ⟨[]⟩ = ⟨[⟨1, 2, 3⟩, ⟨4, 5, 6⟩, ⟨7, 8, 9⟩]⟩ ∧
    ((to_model ([] : List Triangle)).meshes.getD 0 ⟨[]⟩).faces = [] := by
  constructor
  · have h := (stl_c7_to_model [⟨⟨1, 2, 3⟩, ⟨4, 5, 6⟩, ⟨7, 8, 9⟩⟩]).2.2.1 0
      (by decide)
    simpa using h
  · exact (stl_c7_to_model []).2.2.2 rfl

/-- Claim C8: on a well-formed binary STL file of size exactly `84 + 50*T`
whose count field holds `T`, `import` equals `to_model` after `load` and
returns a model with exactly one mesh and exactly `T` faces, face `i` being
exactly the three vertices of triangle record `i` in file order (the
12 normal bytes and 2 attribute bytes of each record are never read). -/
theorem stl_c8_import (junk fjunk : Nat) (file : List Nat) (T : Nat)
    (hlen : file.length = 84 + 50 * T)
    (hcount : le32 file 80 = T) :
    importStl false junk fjunk file = to_model (load false junk fjunk file) ∧
    (importStl false junk fjunk file).meshes.length = 1 ∧
    ((importStl false junk fjunk file).meshes.getD 0 ⟨[]⟩).faces.length = T ∧
    ∀ i, i < T →
      ((importStl false junk fjunk file).meshes.getD 0 ⟨[]⟩).faces.getD i
          ⟨[]⟩ =
        ⟨[⟨le32 file (84 + i * 50 + 12), le32 file (84 + i * 50 + 16),
            le32 file (84 + i * 50 + 20)⟩,
          ⟨le32 file (84 + i * 50 + 24), le32 file (84 + i * 50 + 28),
            le32 file (84 + i * 50 + 32)⟩,
          ⟨le32 file (84 + i * 50 + 36), le32 file (84 + i * 50 + 40),
            le32 file (84 + i * 50 + 44)⟩]⟩ := by
  have hload : load false junk fjunk file = decodeFrom file 0 T := by
    have hg := loadS_good junk fjunk file (by omega)
    rw [hlen, hcount] at hg
    rw [show (84 + 50 * T - 84) / 50 = T by omega] at hg
    rw [if_neg (lt_irrefl T)] at hg
    unfold load
    rw [hg]
    exact loadTriangles_snd fjunk file T 0 84 (by omega)
  refine ⟨rfl, rfl, ?_, ?_⟩
  · unfold importStl
    rw [hload]
    simp [to_model, decodeFrom_length]
  · intro i hi
    unfold importStl
    rw [hload]
    simp only [to_model, List.getD_cons_zero]
    rw [getD_map_lt (fun t : Triangle => (⟨[t.v1, t.v2, t.v3]⟩ : Face))
      (decodeFrom file 0 T) i ⟨[]⟩ default
      (by rw [decodeFrom_length]; exact hi)]
    rw [decodeFrom_getD file T 0 i hi, Nat.zero_add]
    rfl

/-- Claim C8 witness: the spec's round-trip scenario — a 134-byte file with
one triangle (0,0,0), (1,0,0), (0,1,0); the float 1.0 is the bit pattern
1065353216. -/
theorem stl_c8_import_witness :
    (importStl false 0 0 fileRT).meshes.length = 1 ∧
    ((importStl false 0 0 fileRT).meshes.getD 0 ⟨[]⟩).faces.length = 1 ∧
    ((importStl false 0 0 fileRT).meshes.getD 0 ⟨[]⟩).faces.getD 0 ⟨[]⟩ =
      ⟨[⟨0, 0, 0⟩, ⟨1065353216, 0, 0⟩, ⟨0, 1065353216, 0⟩]⟩ := by
  have h := stl_c8_import 0 0 fileRT 1 (by decide) (by decide)
  refine ⟨h.2.1, h.2.2.1, ?_⟩
  rw [h.2.2.2 0 (by decide)]
  decide

/-- Claim C9 counterexample: on an unopenable path the code raises nothing —
`is_stl_binary` silently returns the probability `0.01 * 0.0001` and `load`
returns normally with one garbage triangle (for indeterminate count 1),
contrary to the claim that an I/O error is surfaced and propagated. -/
theorem stl_c9_counterexample :
    is_stl_binary true 1 ['x'] [] = 1 / 1000000 ∧
    (load true 1 0 ([] : List Nat)).length = 1 := by
  constructor
  · rw [is_stl_binary_eq, correct_file_size_check_openFail]
    rw [show base_probability ['x'] = 1 / 100 by
      rw [base_probability, show extension_check ['x'] = false by decide]
      norm_num]
    norm_num
  · decide

/-- Claim C9 as amended: neither operation ever fails.  Stream exceptions
are never enabled, so on an unopenable file every stream operation fails
silently: `is_stl_binary` returns `base_probability * 0.0001` (an ordinary
probability, not an error), and `load` returns normally with
`indeterminate_count % 2^32` garbage triangles.  Malformed-but-readable
data is likewise never an error (both functions are total). -/
theorem stl_c9_no_io_errors (junk fjunk : Nat) (fn : List Char)
    (file : List Nat) :
    is_stl_binary true junk fn file = base_probability fn * (1 / 10000) ∧
    (load true junk fjunk file).length = junk % 2 ^ 32 := by
  constructor
  · rw [is_stl_binary_eq, correct_file_size_check_openFail]
    norm_num
  · unfold load
    rw [loadS_openFail]
    exact loadTriangles_length fjunk (junk % 2 ^ 32) _ 0

/-- Claim C10: on a readable file the returned value is one of exactly four
constants, chosen solely by the two boolean tests — the source's extension
test and the size-consistency test; and the result depends on nothing in
the file except its length and the four count bytes at offsets 80–83 (in
particular not on the indeterminate value of a failed count read). -/
theorem stl_c10_four_constants (junk junk2 : Nat) (fn : List Char)
    (file file2 : List Nat) :
    (is_stl_binary false junk fn file =
      if extension_check fn then
        if correct_file_size_check false junk file then
          1 - (1 - 99 / 100) * (1 / 10000)
        else (99 / 100) * (1 / 10000)
      else
        if correct_file_size_check false junk file then
          1 - (1 - 1 / 100) * (1 / 10000)
        else (1 / 100) * (1 / 10000)) ∧
    (file.length = file2.length →
      (∀ k, k < 4 → file.getD (80 + k) 0 = file2.getD (80 + k) 0) →
      is_stl_binary false junk fn file = is_stl_binary false junk2 fn file2) := by
  constructor
  · rw [is_stl_binary_eq]
    simp only [base_probability]
    rcases Bool.eq_false_or_eq_true (extension_check fn) with he | he <;>
      rcases Bool.eq_false_or_eq_true
        (correct_file_size_check false junk file) with hc | hc <;>
      rw [he, hc] <;> norm_num
  · intro hlen hbytes
    have hle : le32 file 80 = le32 file2 80 := by
      have h0 := hbytes 0 (by omega)
      have h1 := hbytes 1 (by omega)
      have h2 := hbytes 2 (by omega)
      have h3 := hbytes 3 (by omega)
      rw [Nat.add_zero] at h0
      unfold le32 byteAt
      rw [h0, h1, h2, h3]
    have hcc : correct_file_size_check false junk file =
        correct_file_size_check false junk2 file2 := by
      have h1 := correct_file_size_check_false_iff junk file
      have h2 := correct_file_size_check_false_iff junk2 file2
      rw [hlen, hle] at h1
      exact Bool.eq_iff_iff.mpr (h1.trans h2.symm)
    rw [is_stl_binary_eq, is_stl_binary_eq, hcc]

/-- Claim C10 witness: two 134-byte files whose bytes agree only at offsets
80–83 (and in length) receive the same estimate, even with different
indeterminate-read parameters. -/
theorem stl_c10_four_constants_witness :
    is_stl_binary false 0 ['f'] file134 = is_stl_binary false 5 ['f'] file134b :=
  (stl_c10_four_constants 0 5 ['f'] file134 file134b).2 (by decide) (by decide)

end ConvertTo3mf
